import Mathlib

/-!
Verification of the Flokicoin consensus-parameter module
(`src/bitcoin/src/consensus/params.rs`).

The module defines the `Params` record, six predefined per-network
parameter constants, the network-to-parameters resolver `Params::new`,
the derived `difficulty_adjustment_interval`, and `From` conversions.
We embed these definitions shallowly and prove the specified properties.
-/

namespace Flokicoin

/-- Modelled from the spec: the network identifier type `crate::network::Network`
is an external closed enumeration of known networks, not part of this core.
Its variant set (Bitcoin, Testnet, Testnet4, Signet, Regtest) is pinned by the
exhaustive `match` in `Params::new`. -/
inductive Network where
  | Bitcoin
  | Testnet
  | Testnet4
  | Signet
  | Regtest
deriving DecidableEq, Repr

/-- Modelled from the spec: the proof-of-work target type `crate::pow::Target`
is an external numeric representation; this core only uses its per-network
maximum-attainable ceiling constants, so we embed exactly those as an
enumeration of distinct abstract values. -/
inductive Target where
  | MAX_ATTAINABLE_MAINNET
  | MAX_ATTAINABLE_TESTNET
  | MAX_ATTAINABLE_SIGNET
  | MAX_ATTAINABLE_REGTEST
deriving DecidableEq, Repr

/-- The `Params` struct: parameters that influence chain consensus.
Rust `u32`/`u64` fields are embedded as `Nat`; the only arithmetic performed
on them is a division, so no wrap-around arises. -/
structure Params where
  network : Network
  bip16_time : Nat
  bip34_height : Nat
  bip65_height : Nat
  bip66_height : Nat
  rule_change_activation_threshold : Nat
  miner_confirmation_window : Nat
  pow_limit : Target
  max_attainable_target : Target
  pow_target_spacing : Nat
  pow_target_timespan : Nat
  allow_min_difficulty_blocks : Bool
  no_pow_retargeting : Bool
deriving DecidableEq, Repr

namespace Params

/-- The mainnet parameters (`Params::MAINNET`). -/
def MAINNET : Params where
  network := Network.Bitcoin
  bip16_time := 1631485359
  bip34_height := 1
  bip65_height := 1
  bip66_height := 1
  rule_change_activation_threshold := 6840
  miner_confirmation_window := 7200
  pow_limit := Target.MAX_ATTAINABLE_MAINNET
  max_attainable_target := Target.MAX_ATTAINABLE_MAINNET
  pow_target_spacing := 60
  pow_target_timespan := 60
  allow_min_difficulty_blocks := false
  no_pow_retargeting := false

/-- The mainnet parameters, alias for `Params::MAINNET` (`Params::BITCOIN`). -/
def BITCOIN : Params := MAINNET

/-- The deprecated testnet3 parameters (`Params::TESTNET`), kept verbatim as a
separate literal exactly as in the source. -/
def TESTNET : Params where
  network := Network.Testnet
  bip16_time := 1735376054
  bip34_height := 1
  bip65_height := 1
  bip66_height := 1
  rule_change_activation_threshold := 0
  miner_confirmation_window := 1
  pow_limit := Target.MAX_ATTAINABLE_TESTNET
  max_attainable_target := Target.MAX_ATTAINABLE_TESTNET
  pow_target_spacing := 60
  pow_target_timespan := 60
  allow_min_difficulty_blocks := true
  no_pow_retargeting := false

/-- The testnet3 parameters (`Params::TESTNET3`). -/
def TESTNET3 : Params where
  network := Network.Testnet
  bip16_time := 1735376054
  bip34_height := 1
  bip65_height := 1
  bip66_height := 1
  rule_change_activation_threshold := 0
  miner_confirmation_window := 1
  pow_limit := Target.MAX_ATTAINABLE_TESTNET
  max_attainable_target := Target.MAX_ATTAINABLE_TESTNET
  pow_target_spacing := 60
  pow_target_timespan := 60
  allow_min_difficulty_blocks := true
  no_pow_retargeting := false

/-- The testnet4 parameters (`Params::TESTNET4`). -/
def TESTNET4 : Params where
  network := Network.Testnet4
  bip16_time := 1735376054
  bip34_height := 1
  bip65_height := 1
  bip66_height := 1
  rule_change_activation_threshold := 1512
  miner_confirmation_window := 2016
  pow_limit := Target.MAX_ATTAINABLE_TESTNET
  max_attainable_target := Target.MAX_ATTAINABLE_TESTNET
  pow_target_spacing := 10 * 60
  pow_target_timespan := 14 * 24 * 60 * 60
  allow_min_difficulty_blocks := true
  no_pow_retargeting := false

/-- The signet parameters (`Params::SIGNET`). -/
def SIGNET : Params where
  network := Network.Signet
  bip16_time := 1735376054
  bip34_height := 1
  bip65_height := 1
  bip66_height := 1
  rule_change_activation_threshold := 1916
  miner_confirmation_window := 2016
  pow_limit := Target.MAX_ATTAINABLE_SIGNET
  max_attainable_target := Target.MAX_ATTAINABLE_SIGNET
  pow_target_spacing := 60
  pow_target_timespan := 60
  allow_min_difficulty_blocks := false
  no_pow_retargeting := false

/-- The regtest parameters (`Params::REGTEST`). -/
def REGTEST : Params where
  network := Network.Regtest
  bip16_time := 1735376054
  bip34_height := 100000000
  bip65_height := 1351
  bip66_height := 1251
  rule_change_activation_threshold := 1
  miner_confirmation_window := 3
  pow_limit := Target.MAX_ATTAINABLE_REGTEST
  max_attainable_target := Target.MAX_ATTAINABLE_REGTEST
  pow_target_spacing := 60
  pow_target_timespan := 60
  allow_min_difficulty_blocks := true
  no_pow_retargeting := true

/-- `Params::new`: creates the parameter set for the given network, by an
exhaustive match over the network enumeration. -/
def new : Network → Params
  | Network.Bitcoin => MAINNET
  | Network.Testnet => TESTNET3
  | Network.Testnet4 => TESTNET4
  | Network.Signet => SIGNET
  | Network.Regtest => REGTEST

/-- `Params::difficulty_adjustment_interval`: the number of blocks between
difficulty adjustments, `pow_target_timespan / pow_target_spacing`
(Rust `u64` division, i.e. floor division, embedded as `Nat` division). -/
def difficulty_adjustment_interval (p : Params) : Nat :=
  p.pow_target_timespan / p.pow_target_spacing

end Params

/-- `impl From<Network> for Params`: `from(value) = Params::new(value)`. -/
def paramsFromNetwork (value : Network) : Params := Params.new value

/-- `impl From<&Network> for Params`: `from(value) = Params::new(*value)`;
the shallow embedding has no references, so the dereference is the identity. -/
def paramsFromNetworkRef (value : Network) : Params := Params.new value

/-- C1: for every value `n` of the `Network` enumeration, `Params::new(n)`
returns a record whose `network` field equals `n` (round-trip identity of the
network-to-parameters resolution). -/
theorem params_new_network_roundtrip (n : Network) : (Params.new n).network = n := by
  cases n <;> rfl

/-- C2: for every `Params` record `p` with `p.pow_target_spacing > 0`,
`difficulty_adjustment_interval p` equals the floor of
`p.pow_target_timespan / p.pow_target_spacing` (characterised by the
floor-division bounds), is deterministic (any record `q` with the same
timespan and spacing yields the same interval), and the concrete examples
hold: timespan 1,209,600 with spacing 600 yields 2016, and timespan 60 with
spacing 60 yields 1. -/
theorem difficulty_adjustment_interval_spec (p q : Params)
    (h : 0 < p.pow_target_spacing)
    (hts : q.pow_target_timespan = p.pow_target_timespan)
    (hsp : q.pow_target_spacing = p.pow_target_spacing) :
    p.difficulty_adjustment_interval = p.pow_target_timespan / p.pow_target_spacing
    ∧ p.difficulty_adjustment_interval * p.pow_target_spacing ≤ p.pow_target_timespan
    ∧ p.pow_target_timespan
        < (p.difficulty_adjustment_interval + 1) * p.pow_target_spacing
    ∧ q.difficulty_adjustment_interval = p.difficulty_adjustment_interval
    ∧ Params.difficulty_adjustment_interval
        { Params.MAINNET with pow_target_timespan := 1209600, pow_target_spacing := 600 }
        = 2016
    ∧ Params.difficulty_adjustment_interval
        { Params.MAINNET with pow_target_timespan := 60, pow_target_spacing := 60 }
        = 1 := by
  refine ⟨rfl, Nat.div_mul_le_self _ _, ?_, ?_, by decide, by decide⟩
  · simp only [Params.difficulty_adjustment_interval]
    rw [Nat.mul_comm]
    exact Nat.lt_mul_div_succ _ h
  · simp only [Params.difficulty_adjustment_interval, hts, hsp]

/-- Witness for C2: the hypotheses hold at the concrete records `MAINNET` and
`REGTEST` (both have timespan 60 and spacing 60), and the conclusion follows
by applying the theorem there. -/
theorem difficulty_adjustment_interval_spec_witness :
    (0 < Params.MAINNET.pow_target_spacing
      ∧ Params.REGTEST.pow_target_timespan = Params.MAINNET.pow_target_timespan
      ∧ Params.REGTEST.pow_target_spacing = Params.MAINNET.pow_target_spacing)
    ∧ (Params.MAINNET.difficulty_adjustment_interval
          = Params.MAINNET.pow_target_timespan / Params.MAINNET.pow_target_spacing
        ∧ Params.MAINNET.difficulty_adjustment_interval * Params.MAINNET.pow_target_spacing
            ≤ Params.MAINNET.pow_target_timespan
        ∧ Params.MAINNET.pow_target_timespan
            < (Params.MAINNET.difficulty_adjustment_interval + 1)
                * Params.MAINNET.pow_target_spacing
        ∧ Params.REGTEST.difficulty_adjustment_interval
            = Params.MAINNET.difficulty_adjustment_interval
        ∧ Params.difficulty_adjustment_interval
            { Params.MAINNET with pow_target_timespan := 1209600, pow_target_spacing := 600 }
            = 2016
        ∧ Params.difficulty_adjustment_interval
            { Params.MAINNET with pow_target_timespan := 60, pow_target_spacing := 60 }
            = 1) :=
  ⟨⟨by decide, by decide, by decide⟩,
    difficulty_adjustment_interval_spec Params.MAINNET Params.REGTEST
      (by decide) (by decide) (by decide)⟩

/-- C3: `Params::new` is total over the `Network` enumeration with no error
case: every variant is mapped by the exhaustive match to one of the five
predefined records. -/
theorem params_new_total (n : Network) :
    Params.new n = Params.MAINNET ∨ Params.new n = Params.TESTNET3
    ∨ Params.new n = Params.TESTNET4 ∨ Params.new n = Params.SIGNET
    ∨ Params.new n = Params.REGTEST := by
  cases n
  · exact Or.inl rfl
  · exact Or.inr (Or.inl rfl)
  · exact Or.inr (Or.inr (Or.inl rfl))
  · exact Or.inr (Or.inr (Or.inr (Or.inl rfl)))
  · exact Or.inr (Or.inr (Or.inr (Or.inr rfl)))

/-- C4: for every one of the predefined records,
`rule_change_activation_threshold ≤ miner_confirmation_window`. -/
theorem threshold_le_confirmation_window :
    Params.MAINNET.rule_change_activation_threshold
        ≤ Params.MAINNET.miner_confirmation_window
    ∧ Params.TESTNET.rule_change_activation_threshold
        ≤ Params.TESTNET.miner_confirmation_window
    ∧ Params.TESTNET3.rule_change_activation_threshold
        ≤ Params.TESTNET3.miner_confirmation_window
    ∧ Params.TESTNET4.rule_change_activation_threshold
        ≤ Params.TESTNET4.miner_confirmation_window
    ∧ Params.SIGNET.rule_change_activation_threshold
        ≤ Params.SIGNET.miner_confirmation_window
    ∧ Params.REGTEST.rule_change_activation_threshold
        ≤ Params.REGTEST.miner_confirmation_window := by
  decide

/-- C5: for every predefined record, `pow_target_spacing > 0` and
`pow_target_timespan > 0`; consequently the division inside
`difficulty_adjustment_interval` never divides by zero on a predefined
record. -/
theorem spacing_timespan_pos :
    (0 < Params.MAINNET.pow_target_spacing ∧ 0 < Params.MAINNET.pow_target_timespan)
    ∧ (0 < Params.TESTNET.pow_target_spacing ∧ 0 < Params.TESTNET.pow_target_timespan)
    ∧ (0 < Params.TESTNET3.pow_target_spacing ∧ 0 < Params.TESTNET3.pow_target_timespan)
    ∧ (0 < Params.TESTNET4.pow_target_spacing ∧ 0 < Params.TESTNET4.pow_target_timespan)
    ∧ (0 < Params.SIGNET.pow_target_spacing ∧ 0 < Params.SIGNET.pow_target_timespan)
    ∧ (0 < Params.REGTEST.pow_target_spacing ∧ 0 < Params.REGTEST.pow_target_timespan) := by
  decide

/-- C6: the deprecated constant `Params::TESTNET` and the constant
`Params::TESTNET3` are identical in every field. -/
theorem testnet_eq_testnet3 :
    Params.TESTNET.network = Params.TESTNET3.network
    ∧ Params.TESTNET.bip16_time = Params.TESTNET3.bip16_time
    ∧ Params.TESTNET.bip34_height = Params.TESTNET3.bip34_height
    ∧ Params.TESTNET.bip65_height = Params.TESTNET3.bip65_height
    ∧ Params.TESTNET.bip66_height = Params.TESTNET3.bip66_height
    ∧ Params.TESTNET.rule_change_activation_threshold
        = Params.TESTNET3.rule_change_activation_threshold
    ∧ Params.TESTNET.miner_confirmation_window
        = Params.TESTNET3.miner_confirmation_window
    ∧ Params.TESTNET.pow_limit = Params.TESTNET3.pow_limit
    ∧ Params.TESTNET.max_attainable_target = Params.TESTNET3.max_attainable_target
    ∧ Params.TESTNET.pow_target_spacing = Params.TESTNET3.pow_target_spacing
    ∧ Params.TESTNET.pow_target_timespan = Params.TESTNET3.pow_target_timespan
    ∧ Params.TESTNET.allow_min_difficulty_blocks
        = Params.TESTNET3.allow_min_difficulty_blocks
    ∧ Params.TESTNET.no_pow_retargeting = Params.TESTNET3.no_pow_retargeting := by
  decide

/-- C7: a network with `no_pow_retargeting = true` still yields a well-defined
difficulty adjustment interval: `REGTEST` is the only predefined record with
`no_pow_retargeting = true`, its interval is `60 / 60 = 1`, and the result is
unchanged if the flag is cleared, since the formula does not inspect it. -/
theorem regtest_interval_well_defined :
    Params.REGTEST.no_pow_retargeting = true
    ∧ Params.MAINNET.no_pow_retargeting = false
    ∧ Params.TESTNET.no_pow_retargeting = false
    ∧ Params.TESTNET3.no_pow_retargeting = false
    ∧ Params.TESTNET4.no_pow_retargeting = false
    ∧ Params.SIGNET.no_pow_retargeting = false
    ∧ Params.REGTEST.pow_target_timespan = 60
    ∧ Params.REGTEST.pow_target_spacing = 60
    ∧ Params.REGTEST.difficulty_adjustment_interval = 1
    ∧ Params.difficulty_adjustment_interval
        { Params.REGTEST with no_pow_retargeting := false }
        = Params.REGTEST.difficulty_adjustment_interval := by
  decide

/-- C8: among the predefined records, `allow_min_difficulty_blocks` is true
exactly on `TESTNET`, `TESTNET3`, `TESTNET4` and `REGTEST` and false on
`MAINNET` and `SIGNET`, and `no_pow_retargeting` is true exactly on
`REGTEST` and false on every other predefined record. -/
theorem difficulty_flags_pattern :
    Params.MAINNET.allow_min_difficulty_blocks = false
    ∧ Params.TESTNET.allow_min_difficulty_blocks = true
    ∧ Params.TESTNET3.allow_min_difficulty_blocks = true
    ∧ Params.TESTNET4.allow_min_difficulty_blocks = true
    ∧ Params.SIGNET.allow_min_difficulty_blocks = false
    ∧ Params.REGTEST.allow_min_difficulty_blocks = true
    ∧ Params.MAINNET.no_pow_retargeting = false
    ∧ Params.TESTNET.no_pow_retargeting = false
    ∧ Params.TESTNET3.no_pow_retargeting = false
    ∧ Params.TESTNET4.no_pow_retargeting = false
    ∧ Params.SIGNET.no_pow_retargeting = false
    ∧ Params.REGTEST.no_pow_retargeting = true := by
  decide

/-- C9: for every predefined record, the deprecated field `pow_limit` and its
renamed canonical replacement `max_attainable_target` hold the same value. -/
theorem pow_limit_eq_max_attainable :
    Params.MAINNET.pow_limit = Params.MAINNET.max_attainable_target
    ∧ Params.TESTNET.pow_limit = Params.TESTNET.max_attainable_target
    ∧ Params.TESTNET3.pow_limit = Params.TESTNET3.max_attainable_target
    ∧ Params.TESTNET4.pow_limit = Params.TESTNET4.max_attainable_target
    ∧ Params.SIGNET.pow_limit = Params.SIGNET.max_attainable_target
    ∧ Params.REGTEST.pow_limit = Params.REGTEST.max_attainable_target := by
  decide

/-- C10: all value-conversion entry points agree with the canonical resolver:
for every network `n`, `From<Network>` and `From<&Network>` produce the same
record as `Params::new(n)`, and the alias constant `Params::BITCOIN` equals
`Params::MAINNET`. -/
theorem conversions_agree_with_new (n : Network) :
    paramsFromNetwork n = Params.new n
    ∧ paramsFromNetworkRef n = Params.new n
    ∧ Params.BITCOIN = Params.MAINNET :=
  ⟨rfl, rfl, rfl⟩

end Flokicoin
